import Mathlib

/-!
Verification development for the Movie_Shows_Discovery repository core:
the expiring cache, the cache key builder, the rate-limited retrying HTTP
client, the similarity scorer and the recommendation engine
(backend/utils/helpers.go, backend/services/watchlist_service.go,
backend/controllers/watchlist_controller.go).

Shallow embedding conventions:
- Go `time.Time` instants become `Nat` virtual timestamps; `time.Duration`
  TTLs become `Nat`.
- Go `float64` becomes `ℚ` (the scorer only uses +, -, *, /, abs, min and
  comparisons, which are exact in ℚ).
- Go maps become functions to `Option`.
- The outbound HTTP world (rate limiter ticks, per-attempt responses,
  context cancellation) is modelled by explicit oracles and a virtual clock
  that advances by the sleeps the code performs.
-/

/-! ## Expiring cache (utils.Cache, helpers.go) -/

/-- Model of `utils.CacheItem`: a stored value plus its absolute expiry. -/
structure CacheItem (α : Type) where
  data : α
  expiresAt : Nat
deriving DecidableEq

/-- Model of `utils.Cache`: the Go `map[string]CacheItem`. -/
def Cache (α : Type) : Type := String → Option (CacheItem α)

/-- Model of `Cache.Set`: stores the value with `expiresAt = now + ttl`,
overwriting unconditionally. -/
def Cache.set (c : Cache α) (key : String) (value : α) (ttl now : Nat) : Cache α :=
  fun k => if k = key then some ⟨value, now + ttl⟩ else c k

/-- Model of `Cache.Delete`. -/
def Cache.delete (c : Cache α) (key : String) : Cache α :=
  fun k => if k = key then none else c k

/-- Model of `Cache.Get`. Go's `time.Now().After(item.ExpiresAt)` is the
strict comparison `item.expiresAt < now`. Returns the `(value, found)` pair
together with the cache after the call (expired entries are deleted). -/
def Cache.get (c : Cache α) (key : String) (now : Nat) : (Option α × Bool) × Cache α :=
  match c key with
  | none => ((none, false), c)
  | some item =>
    if item.expiresAt < now then ((none, false), Cache.delete c key)
    else ((some item.data, true), c)

/-- Model of `Cache.Cleanup`: removes every entry whose expiry has passed. -/
def Cache.cleanup (c : Cache α) (now : Nat) : Cache α :=
  fun k =>
    match c k with
    | none => none
    | some item => if item.expiresAt < now then none else some item

/-! ## MD5 (crypto/md5 as used by GenerateCacheKey) -/

/-- Per-round constants of MD5: `K[i] = floor(2^32 * |sin(i+1)|)`. -/
def md5K : List Nat :=
  [3614090360, 3905402710, 606105819, 3250441966, 4118548399, 1200080426,
   2821735955, 4249261313, 1770035416, 2336552879, 4294925233, 2304563134,
   1804603682, 4254626195, 2792965006, 1236535329, 4129170786, 3225465664,
   643717713, 3921069994, 3593408605, 38016083, 3634488961, 3889429448,
   568446438, 3275163606, 4107603335, 1163531501, 2850285829, 4243563512,
   1735328473, 2368359562, 4294588738, 2272392833, 1839030562, 4259657740,
   2763975236, 1272893353, 4139469664, 3200236656, 681279174, 3936430074,
   3572445317, 76029189, 3654602809, 3873151461, 530742520, 3299628645,
   4096336452, 1126891415, 2878612391, 4237533241, 1700485571, 2399980690,
   4293915773, 2240044497, 1873313359, 4264355552, 2734768916, 1309151649,
   4149444226, 3174756917, 718787259, 3951481745]

/-- Per-round left-rotation amounts of MD5. -/
def md5S : List Nat :=
  [7, 12, 17, 22, 7, 12, 17, 22, 7, 12, 17, 22, 7, 12, 17, 22,
   5, 9, 14, 20, 5, 9, 14, 20, 5, 9, 14, 20, 5, 9, 14, 20,
   4, 11, 16, 23, 4, 11, 16, 23, 4, 11, 16, 23, 4, 11, 16, 23,
   6, 10, 15, 21, 6, 10, 15, 21, 6, 10, 15, 21, 6, 10, 15, 21]

/-- 32-bit left rotation on a `Nat` below `2^32`. -/
def rotl32 (x s : Nat) : Nat :=
  ((x <<< s) ||| (x >>> (32 - s))) % 4294967296

/-- 32-bit bitwise complement of a `Nat` below `2^32`. -/
def not32 (x : Nat) : Nat := 4294967295 - x

/-- The four MD5 chaining words. -/
structure MD5State where
  a : Nat
  b : Nat
  c : Nat
  d : Nat

/-- The round function value of MD5 round `i`. -/
def md5F (i b c d : Nat) : Nat :=
  if i < 16 then (b &&& c) ||| (not32 b &&& d)
  else if i < 32 then (d &&& b) ||| (not32 d &&& c)
  else if i < 48 then b ^^^ c ^^^ d
  else c ^^^ (b ||| not32 d)

/-- The message-word index used in MD5 round `i`. -/
def md5G (i : Nat) : Nat :=
  if i < 16 then i
  else if i < 32 then (5 * i + 1) % 16
  else if i < 48 then (3 * i + 5) % 16
  else (7 * i) % 16

/-- One MD5 round over the 16 message words `M`. -/
def md5Round (M : List Nat) (st : MD5State) (i : Nat) : MD5State :=
  let f := md5F i st.b st.c st.d
  let tmp := (st.a + f + md5K.getD i 0 + M.getD (md5G i) 0) % 4294967296
  let nb := (st.b + rotl32 tmp (md5S.getD i 0)) % 4294967296
  ⟨st.d, nb, st.b, st.c⟩

/-- Turn a flat little-endian byte list into 32-bit words (4 bytes each). -/
def md5Words : List Nat → List Nat
  | b0 :: b1 :: b2 :: b3 :: rest =>
      (b0 + 256 * (b1 + 256 * (b2 + 256 * b3))) :: md5Words rest
  | _ => []

/-- Process one 64-byte block. -/
def md5Block (st : MD5State) (block : List Nat) : MD5State :=
  let M := md5Words block
  let r := (List.range 64).foldl (md5Round M) st
  ⟨(st.a + r.a) % 4294967296, (st.b + r.b) % 4294967296,
   (st.c + r.c) % 4294967296, (st.d + r.d) % 4294967296⟩

/-- Process the padded message block by block; fuel is the byte count. -/
def md5Blocks (fuel : Nat) (st : MD5State) (bytes : List Nat) : MD5State :=
  match fuel with
  | 0 => st
  | f + 1 =>
    match bytes with
    | [] => st
    | _ => md5Blocks f (md5Block st (bytes.take 64)) (bytes.drop 64)

/-- `k` little-endian bytes of `n`. -/
def leBytes (n k : Nat) : List Nat :=
  match k with
  | 0 => []
  | k + 1 => (n % 256) :: leBytes (n / 256) k

/-- MD5 padding: 0x80, zeros to 56 mod 64, then the 64-bit LE bit length. -/
def md5Pad (msg : List Nat) : List Nat :=
  let ml := msg.length
  let z := (56 + 64 - ((ml + 1) % 64)) % 64
  msg ++ [128] ++ List.replicate z 0 ++ leBytes ((8 * ml) % 18446744073709551616) 8

/-- Lowercase hexadecimal digit. -/
def hexDigit (n : Nat) : Char :=
  if n < 10 then Char.ofNat (48 + n) else Char.ofNat (87 + n)

/-- Two lowercase hex characters of a byte. -/
def byteHex (b : Nat) : List Char := [hexDigit (b / 16), hexDigit (b % 16)]

/-- MD5 digest of a byte list, as the lowercase hex string that
`hex.EncodeToString(hash[:])` produces in Go. -/
def md5Hex (msg : List Nat) : String :=
  let padded := md5Pad msg
  let st := md5Blocks padded.length ⟨1732584193, 4023233417, 2562383102, 271733878⟩ padded
  String.mk (((leBytes st.a 4 ++ leBytes st.b 4 ++ leBytes st.c 4 ++ leBytes st.d 4).map byteHex).flatten)

/-- UTF-8 encoding of one character, as Go's `[]byte(string)` produces. -/
def utf8Char (c : Char) : List Nat :=
  let n := c.toNat
  if n < 128 then [n]
  else if n < 2048 then [192 + n / 64, 128 + n % 64]
  else if n < 65536 then [224 + n / 4096, 128 + (n / 64) % 64, 128 + n % 64]
  else [240 + n / 262144, 128 + (n / 4096) % 64, 128 + (n / 64) % 64, 128 + n % 64]

/-- UTF-8 bytes of a string. -/
def utf8Bytes (s : String) : List Nat := (s.toList.map utf8Char).flatten

/-- The pre-hash input of `GenerateCacheKey`: the operation name followed by
`":" + fmt.Sprintf("%v", param)` for each parameter in order. Parameters are
modelled as their already-`%v`-formatted strings. -/
def cacheKeyInput (op : String) (params : List String) : String :=
  params.foldl (fun key p => key ++ ":" ++ p) op

/-- Model of `utils.GenerateCacheKey`: the hex MD5 of the concatenation. -/
def GenerateCacheKey (op : String) (params : List String) : String :=
  md5Hex (utf8Bytes (cacheKeyInput op params))

/-! ## Rate limiter (utils.RateLimiter, helpers.go)

The Go limiter is a buffered channel `requests` of capacity
`requestsPerSecond`, refilled by a ticker goroutine whose send is a
`select` with a `default` branch (a refill into a full channel is dropped).
The channel is modelled by its occupancy count; ticker fires and permit
acquisitions are the events of a run. -/

/-- Occupancy model of `utils.RateLimiter`: channel capacity and the number
of unclaimed permits currently buffered. -/
structure RateLimiter where
  cap : Nat
  available : Nat
deriving DecidableEq

/-- Model of `utils.NewRateLimiter`: capacity `requestsPerSecond`, initially
empty channel. -/
def NewRateLimiter (requestsPerSecond : Nat) : RateLimiter :=
  ⟨requestsPerSecond, 0⟩

/-- Events acting on the limiter: a ticker fire (refill attempt) or a
consumer receiving one permit. -/
inductive RLEvent where
  | refill
  | acquire
deriving DecidableEq

/-- One step of the limiter. A refill into a full channel is a no-op
(the `select`/`default` in the refill goroutine); an acquire takes one
permit when present (a receive from an empty channel blocks, i.e. changes
nothing until a refill happens). -/
def RateLimiter.step (rl : RateLimiter) : RLEvent → RateLimiter
  | .refill => if rl.available < rl.cap then ⟨rl.cap, rl.available + 1⟩ else rl
  | .acquire => ⟨rl.cap, rl.available - 1⟩

/-- A run of the limiter over a sequence of events. -/
def RateLimiter.run (rl : RateLimiter) (events : List RLEvent) : RateLimiter :=
  events.foldl RateLimiter.step rl

/-! ## Retrying HTTP client (HTTPClient.RequestWithRetry, helpers.go)

The loop is embedded over a virtual clock (in seconds, matching the Go
backoff unit): rate-limiter waits are instantaneous, `time.Sleep(backoff)`
advances the clock by `backoff`, and the in-flight request of attempt `i`
takes `doTime i`. The target's behaviour is an oracle giving each attempt's
outcome; the caller's context is a virtual cancellation instant. -/

/-- Outcome of one `h.client.Do(req)` call: a transport-level error
(flagged when it is the context's cancellation error) or a response with a
status code. -/
inductive DoOut where
  | err (ctxCaused : Bool)
  | resp (status : Nat)
deriving DecidableEq

/-- Caller context: `cancelAt = some T` means the context is cancelled from
virtual time `T` on; `none` means it is never cancelled. -/
structure Ctx where
  cancelAt : Option Nat
deriving DecidableEq

/-- Whether `ctx.Done()` is closed at time `t`. -/
def Ctx.done (ctx : Ctx) (t : Nat) : Bool :=
  match ctx.cancelAt with
  | some tc => decide (tc ≤ t)
  | none => false

/-- The `h.client.Do(req)` of attempt `i` started at time `t`: if the
context is cancelled strictly before the attempt's natural completion time
`t + doTime i`, the request unwinds at the cancellation instant with a
context-caused error; otherwise the oracle's outcome arrives at completion
time. -/
def doOutcome (oracle : Nat → DoOut) (doTime : Nat → Nat) (ctx : Ctx) (i t : Nat) :
    DoOut × Nat :=
  match ctx.cancelAt with
  | some tc =>
    if tc < t + doTime i then (.err true, max t tc) else (oracle i, t + doTime i)
  | none => (oracle i, t + doTime i)

/-- Errors `RequestWithRetry` can return (the `fmt.Errorf` cases).
`requestFailedAfter n ctxCaused` records whether the wrapped transport
error was the context's cancellation error. -/
inductive RetryError where
  | ctxErr
  | requestFailedAfter (attempts : Nat) (ctxCaused : Bool)
  | rateLimitedAfter (attempts : Nat)
  | serverErrorAfter (attempts : Nat)
deriving DecidableEq

/-- The `(resp, err)` pair `RequestWithRetry` returns: success response,
response plus terminal error, or error alone. -/
inductive RetryResult where
  | ok (status : Nat)
  | respErr (status : Nat) (e : RetryError)
  | err (e : RetryError)
deriving DecidableEq

/-- The retry loop of `RequestWithRetry` (`maxRetries = 3`, so `fuel`
starts at 4). Arguments after the oracles: remaining attempts, attempt
index, current backoff, current virtual time. Returns the result, the
finish time and the number of attempts performed. Each iteration mirrors
the Go body: the `select` on the rate-limiter permit and `ctx.Done()`
(a permit is granted instantly unless the context is already cancelled),
the request, the status classification with `time.Sleep` backoffs
(doubled sleep for 429), and the terminal returns once
`attempt == maxRetries`. -/
def requestLoop (oracle : Nat → DoOut) (doTime : Nat → Nat) (ctx : Ctx) :
    Nat → Nat → Nat → Nat → RetryResult × Nat × Nat
  | 0, _, _, t => (.err (.requestFailedAfter 4 false), t, 0)
  | fuel + 1, attempt, backoff, t =>
    if ctx.done t then (.err .ctxErr, t, 0)
    else
      match doOutcome oracle doTime ctx attempt t with
      | (.err c, t2) =>
        if fuel = 0 then (.err (.requestFailedAfter 4 c), t2, 1)
        else
          let r := requestLoop oracle doTime ctx fuel (attempt + 1) (backoff * 2) (t2 + backoff)
          (r.1, r.2.1, r.2.2 + 1)
      | (.resp s, t2) =>
        if 200 ≤ s ∧ s < 300 then (.ok s, t2, 1)
        else if s = 429 then
          if fuel = 0 then (.respErr 429 (.rateLimitedAfter 4), t2, 1)
          else
            let r := requestLoop oracle doTime ctx fuel (attempt + 1) (backoff * 2)
              (t2 + backoff * 2)
            (r.1, r.2.1, r.2.2 + 1)
        else if s = 500 ∨ s = 502 ∨ s = 503 ∨ s = 504 then
          if fuel = 0 then (.respErr s (.serverErrorAfter 4), t2, 1)
          else
            let r := requestLoop oracle doTime ctx fuel (attempt + 1) (backoff * 2) (t2 + backoff)
            (r.1, r.2.1, r.2.2 + 1)
        else (.ok s, t2, 1)

/-- Model of `HTTPClient.RequestWithRetry`: `maxRetries = 3` (4 attempts),
initial backoff 1 second, starting at virtual time 0. -/
def RequestWithRetry (oracle : Nat → DoOut) (doTime : Nat → Nat) (ctx : Ctx) :
    RetryResult × Nat × Nat :=
  requestLoop oracle doTime ctx 4 0 1 0

/-! ## Data model (models.Movie, models.Watchlist, helpers.ParseYear) -/

/-- The fields of `models.Movie` the core subsystem reads. -/
structure Movie where
  ID : Int
  GenreIDs : List Int
  VoteAverage : ℚ
  Popularity : ℚ
  ReleaseDate : String
deriving DecidableEq

/-- The fields of `models.WatchlistItem` the recommendation engine reads:
the user rating and the embedded movie. -/
structure WatchlistItem where
  Rating : ℚ
  movie : Movie
deriving DecidableEq

/-- The field of `models.Watchlist` the recommendation engine reads. -/
structure Watchlist where
  Items : List WatchlistItem
deriving DecidableEq

/-- Model of `models.WatchlistRecommendation`. -/
structure WatchlistRecommendation where
  movie : Movie
  Score : ℚ
  Reason : String
  GenreMatch : ℚ
  RatingMatch : ℚ
deriving DecidableEq

/-- Go `strconv.Atoi` restricted to what `ParseYear` needs: an optional
sign followed by at least one decimal digit (overflow is irrelevant for
year-sized inputs). -/
def atoiDigits (cs : List Char) : Option Nat :=
  if cs = [] then none
  else if cs.all (fun c => c.isDigit) then
    some (cs.foldl (fun acc c => acc * 10 + (c.toNat - 48)) 0)
  else none

/-- Model of `strconv.Atoi` as used by `ParseYear`. -/
def atoi (s : String) : Option Int :=
  match s.toList with
  | [] => none
  | '+' :: rest => (atoiDigits rest).map (fun n => (n : Int))
  | '-' :: rest => (atoiDigits rest).map (fun n => -(n : Int))
  | cs => (atoiDigits cs).map (fun n => (n : Int))

/-- `time.Now().Year()` at the time of this development, used only by the
fallback branch of `ParseYear` (which is unreachable for the date strings
the providers return). -/
def currentYearModel : Int := 2026

/-- Model of `utils.ParseYear`: split on `-` and parse the first part;
fall back to parsing the whole string with a plausibility range check. -/
def ParseYear (dateStr : String) : Int :=
  if dateStr = "" then 0
  else
    match (dateStr.splitOn "-").head? with
    | none => 0
    | some p0 =>
      match atoi p0 with
      | some year => year
      | none =>
        match atoi dateStr with
        | some year =>
          if 1900 < year ∧ year ≤ currentYearModel + 10 then year else 0
        | none => 0

/-! ## Preference vector (analyzeUserPreferences, watchlist_service.go)

The Go preference map `map[string]float64` keys its entries as
`"genre_<id>"`, `"avg_rating"` and `"year_<y>"`; the three key families are
disjoint by construction, so the map is embedded as a structure with one
component per family (`none` models key absence). -/

/-- The preference vector derived from a watchlist. -/
structure Preferences where
  genre : Int → Option ℚ
  avgRating : Option ℚ
  year : Int → Option ℚ

/-- Total occurrences of genre `g` across the watchlist items (the Go loop
increments once per occurrence in each item's `GenreIDs`). -/
def genreCount (items : List WatchlistItem) (g : Int) : Nat :=
  items.foldl (fun acc it => acc + it.movie.GenreIDs.count g) 0

/-- Sum of the strictly positive user ratings. -/
def ratingSum (items : List WatchlistItem) : ℚ :=
  items.foldl (fun acc it => if 0 < it.Rating then acc + it.Rating else acc) 0

/-- Number of items with a strictly positive user rating. -/
def ratingCount (items : List WatchlistItem) : Nat :=
  items.foldl (fun acc it => if 0 < it.Rating then acc + 1 else acc) 0

/-- Number of items whose release year parses to `y` (only `y > 0` is ever
recorded by the Go loop). -/
def yearCount (items : List WatchlistItem) (y : Int) : Nat :=
  items.foldl (fun acc it => if ParseYear it.movie.ReleaseDate = y then acc + 1 else acc) 0

/-- Model of `WatchlistService.analyzeUserPreferences`: genre and year
frequencies relative to the item count, plus the mean of the positive
ratings when one exists. -/
def analyzeUserPreferences (watchlist : Watchlist) : Preferences :=
  let items := watchlist.Items
  { genre := fun g =>
      if 0 < genreCount items g then
        some ((genreCount items g : ℚ) / (items.length : ℚ))
      else none
    avgRating :=
      if 0 < ratingCount items then
        some (ratingSum items / (ratingCount items : ℚ))
      else none
    year := fun y =>
      if 0 < y ∧ 0 < yearCount items y then
        some ((yearCount items y : ℚ) / (items.length : ℚ))
      else none }

/-! ## Scoring (scoreRecommendations, watchlist_service.go) -/

/-- The genre-match component: mean over the candidate's genre IDs of the
preference weight (0 for a genre with no preference entry); 0 for a
candidate with no genres. -/
def genreMatchOf (preferences : Preferences) (m : Movie) : ℚ :=
  let s := m.GenreIDs.foldl (fun acc g => acc + ((preferences.genre g).getD 0)) 0
  if 0 < m.GenreIDs.length then s / (m.GenreIDs.length : ℚ) else s

/-- The rating-match component: `1 - |VoteAverage - avg| / 10` when an
average-rating preference exists and the candidate's rating is positive,
else 0. -/
def ratingMatchOf (preferences : Preferences) (m : Movie) : ℚ :=
  match preferences.avgRating with
  | some avg => if 0 < m.VoteAverage then 1 - |m.VoteAverage - avg| / 10 else 0
  | none => 0

/-- The year-match component: the preference weight of the parsed release
year, 0 when the year does not parse or has no entry. -/
def yearMatchOf (preferences : Preferences) (m : Movie) : ℚ :=
  let year := ParseYear m.ReleaseDate
  if 0 < year then (preferences.year year).getD 0 else 0

/-- The overall score: the weighted sum, plus the capped popularity bonus
added only when `Popularity > 0` (as the Go guard does). -/
def scoreOf (preferences : Preferences) (m : Movie) : ℚ :=
  let base := genreMatchOf preferences m * 0.5 + ratingMatchOf preferences m * 0.3
    + yearMatchOf preferences m * 0.2
  if 0 < m.Popularity then base + min (m.Popularity / 100) 0.1 else base

/-- The recommendation reason string, first applicable rule wins. -/
def reasonOf (preferences : Preferences) (m : Movie) : String :=
  if 0.5 < genreMatchOf preferences m then "Similar genres to your favorites"
  else if 0.7 < ratingMatchOf preferences m then "Matches your rating preferences"
  else if 0.3 < yearMatchOf preferences m then "From your preferred time period"
  else "Based on your watchlist preferences"

/-- Scoring of one candidate, as the loop body of `scoreRecommendations`
builds each `models.WatchlistRecommendation`. -/
def scoreOne (preferences : Preferences) (m : Movie) : WatchlistRecommendation :=
  { movie := m
    Score := scoreOf preferences m
    Reason := reasonOf preferences m
    GenreMatch := genreMatchOf preferences m
    RatingMatch := ratingMatchOf preferences m }

/-- The descending-score ordering used by the `sort.Slice` comparator
`recommendations[i].Score > recommendations[j].Score`. -/
def recGE (a b : WatchlistRecommendation) : Prop := b.Score ≤ a.Score

instance : DecidableRel recGE :=
  fun a b => inferInstanceAs (Decidable (b.Score ≤ a.Score))

instance : IsTotal WatchlistRecommendation recGE :=
  ⟨fun a b => le_total b.Score a.Score⟩

instance : IsTrans WatchlistRecommendation recGE :=
  ⟨fun _ _ _ h1 h2 => le_trans h2 h1⟩

/-- Model of `WatchlistService.scoreRecommendations`: score every
candidate, sort by descending score (Go's `sort.Slice` is modelled by
insertion sort over the same comparator; tie order is unspecified in Go),
and truncate to `limit` when more were scored. -/
def scoreRecommendations (preferences : Preferences) (candidates : List Movie)
    (limit : Int) : List WatchlistRecommendation :=
  let recommendations := candidates.map (scoreOne preferences)
  let sorted := recommendations.insertionSort recGE
  if limit < (sorted.length : Int) then sorted.take limit.toNat else sorted

/-- Model of the limit handling in
`WatchlistController.GetRecommendations`: a non-positive parsed `limit`
query value is replaced by 10. -/
def controllerRecommendationLimit (limit : Int) : Int :=
  if limit ≤ 0 then 10 else limit

/-! ## Similarity scorer (utils.CalculateSimilarity, part_007) -/

/-- Model of `utils.CalculateSimilarity`: Jaccard index of the two genre-ID
sets. The Go code materialises each `GenreIDs` list as a `map[int]bool`
set; the sets are modelled as deduplicated lists, the intersection count as
the number of members of the first set that lie in the second, and the
union count as `|set1| + |set2| - intersection`, exactly as the source
computes them. Returns 0 when either list is empty. -/
def CalculateSimilarity (movie1 movie2 : Movie) : ℚ :=
  if movie1.GenreIDs = [] ∨ movie2.GenreIDs = [] then 0
  else
    let genres1 := movie1.GenreIDs.dedup
    let genres2 := movie2.GenreIDs.dedup
    let intersection := (genres1.filter (fun g => decide (g ∈ genres2))).length
    let union := genres1.length + genres2.length - intersection
    if union = 0 then 0 else (intersection : ℚ) / (union : ℚ)

/-! ## Recommendation engine and similar movies
(WatchlistService.GetRecommendations / GetSimilarMovies)

The service's cache stores both recommendation lists and similar-movie
lists (`interface{}` in Go); the type assertions on read are modelled by a
sum type. External collaborators (the watchlist map and the TMDB trending
and details fetches) are passed in as oracles. -/

/-- The values the watchlist service stores in its cache. -/
inductive CacheVal where
  | recs (l : List WatchlistRecommendation)
  | movies (l : List Movie)
deriving DecidableEq

/-- The cache key of a recommendations call:
`GenerateCacheKey("recommendations", userID, limit)`. -/
def recommendationsKey (userID : String) (limit : Int) : String :=
  GenerateCacheKey "recommendations" [userID, toString limit]

/-- Model of `WatchlistService.GetRecommendations`: cache probe (a hit
must also pass the `[]WatchlistRecommendation` type assertion), watchlist
lookup, empty-watchlist short circuit, preference analysis, trending
fetch, scoring, and caching of the result for 30 minutes. -/
def GetRecommendations (cache : Cache CacheVal) (watchlists : String → Option Watchlist)
    (trending : Except String (List Movie)) (userID : String) (limit : Int) (now : Nat) :
    Except String (List WatchlistRecommendation) × Cache CacheVal :=
  let g := Cache.get cache (recommendationsKey userID limit) now
  match g.1 with
  | (some (.recs l), true) => (.ok l, g.2)
  | _ =>
    match watchlists userID with
    | none => (.error "watchlist not found", g.2)
    | some wl =>
      match wl.Items with
      | [] => (.ok [], g.2)
      | _ =>
        let preferences := analyzeUserPreferences wl
        match trending with
        | .error e => (.error ("failed to get trending movies: " ++ e), g.2)
        | .ok candidates =>
          let recommendations := scoreRecommendations preferences candidates limit
          (.ok recommendations,
            Cache.set g.2 (recommendationsKey userID limit) (.recs recommendations) 1800 now)

/-- The descending-similarity ordering `sort.Slice` uses in
`GetSimilarMovies`. -/
def simGE (sourceMovie : Movie) (a b : Movie) : Prop :=
  CalculateSimilarity sourceMovie b ≤ CalculateSimilarity sourceMovie a

instance (sourceMovie : Movie) : DecidableRel (simGE sourceMovie) :=
  fun a b => inferInstanceAs
    (Decidable (CalculateSimilarity sourceMovie b ≤ CalculateSimilarity sourceMovie a))

/-- The cache key of a similar-movies call. -/
def similarMoviesKey (movieID : Int) (limit : Int) : String :=
  GenerateCacheKey "similar_movies" [toString movieID, toString limit]

/-- Model of `WatchlistService.GetSimilarMovies`: cache probe, source-movie
fetch, trending fetch, then keep the trending candidates whose ID differs
from the queried ID and whose similarity to the source exceeds 0.1, sort
by descending similarity, truncate to `limit`, and cache for 30 minutes. -/
def GetSimilarMovies (cache : Cache CacheVal) (getMovie : Int → Except String Movie)
    (trending : Except String (List Movie)) (movieID : Int) (limit : Int) (now : Nat) :
    Except String (List Movie) × Cache CacheVal :=
  let g := Cache.get cache (similarMoviesKey movieID limit) now
  match g.1 with
  | (some (.movies l), true) => (.ok l, g.2)
  | _ =>
    match getMovie movieID with
    | .error e => (.error ("failed to get source movie: " ++ e), g.2)
    | .ok sourceMovie =>
      match trending with
      | .error e => (.error ("failed to get trending movies: " ++ e), g.2)
      | .ok candidates =>
        let similarMovies := candidates.filter
          (fun m => decide (m.ID ≠ movieID ∧ (0.1 : ℚ) < CalculateSimilarity sourceMovie m))
        let sorted := similarMovies.insertionSort (simGE sourceMovie)
        let final := if limit < (sorted.length : Int) then sorted.take limit.toNat else sorted
        (.ok final, Cache.set g.2 (similarMoviesKey movieID limit) (.movies final) 1800 now)

/-! ## Theorems for the claims -/

/-- C1: for every request whose target responds 503 on every attempt (and
whose context never fires), `RequestWithRetry` makes exactly 4 attempts
(1 initial + 3 retries) and then returns the last 503 response together
with the terminal `server error after 4 attempts` error; in particular it
never retries indefinitely. -/
theorem requestWithRetry_always503_terminates (oracle : Nat → DoOut) (doTime : Nat → Nat)
    (ctx : Ctx) (h : ∀ i, oracle i = .resp 503) (hc : ctx.cancelAt = none) :
    (RequestWithRetry oracle doTime ctx).1 = .respErr 503 (.serverErrorAfter 4)
    ∧ (RequestWithRetry oracle doTime ctx).2.2 = 4 := by
  simp [RequestWithRetry, requestLoop, doOutcome, Ctx.done, hc, h]

/-- Witness for C1: the concrete always-503 target. -/
theorem requestWithRetry_always503_terminates_witness :
    (∀ i : Nat, (fun _ : Nat => DoOut.resp 503) i = DoOut.resp 503)
    ∧ (RequestWithRetry (fun _ => .resp 503) (fun _ => 0) ⟨none⟩).1
        = .respErr 503 (.serverErrorAfter 4)
    ∧ (RequestWithRetry (fun _ => .resp 503) (fun _ => 0) ⟨none⟩).2.2 = 4 :=
  ⟨fun _ => rfl,
    requestWithRetry_always503_terminates (fun _ => .resp 503) (fun _ => 0) ⟨none⟩
      (fun _ => rfl) rfl⟩

/-- C2 counterexample. First run: target always 503, instantaneous
requests, context cancelled at virtual time 2, i.e. during the second
backoff sleep (which runs from time 1 to time 3). The call does return the
cancellation error, but only at time 3 — it hangs through the remainder of
the backoff sleep instead of failing immediately at the cancellation
instant 2, because the Go code sleeps with a plain `time.Sleep` that does
not select on `ctx.Done()`. Second run: transport errors on every attempt,
context cancelled at time 8 while the 4th (final) attempt's request is in
flight; the cancellation is returned wrapped inside the
`request failed after 4 attempts` retry-exhaustion error rather than as a
plain cancellation error. -/
theorem requestWithRetry_cancellation_not_immediate :
    ((RequestWithRetry (fun _ => .resp 503) (fun _ => 0) ⟨some 2⟩).1 = .err .ctxErr
      ∧ (RequestWithRetry (fun _ => .resp 503) (fun _ => 0) ⟨some 2⟩).2.1 = 3
      ∧ ¬(RequestWithRetry (fun _ => .resp 503) (fun _ => 0) ⟨some 2⟩).2.1 = 2)
    ∧ (RequestWithRetry (fun _ => .err false) (fun i => if i = 3 then 10 else 0) ⟨some 8⟩).1
        = .err (.requestFailedAfter 4 true) := by decide

/-- C2 as amended: cancellation is only observed at the loop-top
`select` on the rate-limiter permit and `ctx.Done()`, or by the in-flight
request. A cancellation the loop-top select sees makes the call fail at
that very instant with the context's error and no further attempt; a
cancellation during a backoff sleep is observed only after the sleep
completes, and one during the final attempt's request is returned wrapped
in the retry-exhaustion error. -/
theorem requestWithRetry_cancelled_checkpoint (oracle : Nat → DoOut) (doTime : Nat → Nat)
    (ctx : Ctx) (fuel attempt backoff t : Nat) (h : ctx.done t = true) :
    requestLoop oracle doTime ctx (fuel + 1) attempt backoff t = (.err .ctxErr, t, 0) := by
  simp [requestLoop, h]

/-- Witness for the amended C2: a context already cancelled when the call
starts fails immediately, with no attempt made and no time passed. -/
theorem requestWithRetry_cancelled_checkpoint_witness :
    Ctx.done ⟨some 0⟩ 0 = true
    ∧ requestLoop (fun _ => .resp 503) (fun _ => 0) ⟨some 0⟩ 4 0 1 0 = (.err .ctxErr, 0, 0) :=
  ⟨rfl, requestWithRetry_cancelled_checkpoint (fun _ => .resp 503) (fun _ => 0) ⟨some 0⟩
    3 0 1 0 rfl⟩

/-- C3: for every key, value and positive ttl, `Get` immediately after
`Set` returns the value with `found = true`; at any time strictly past the
entry's expiry, `Get` returns `(none, false)` and the entry is deleted from
the returned cache, and `Cleanup` at such a time leaves no trace of the
key. -/
theorem cache_get_after_set_and_expiry (α : Type) (c : Cache α) (key : String) (value : α)
    (ttl now now2 : Nat) (h1 : 0 < ttl) (h2 : now + ttl < now2) :
    ((Cache.set c key value ttl now).get key now).1 = (some value, true)
    ∧ ((Cache.set c key value ttl now).get key now2).1 = (none, false)
    ∧ ((Cache.set c key value ttl now).get key now2).2 key = none
    ∧ (Cache.set c key value ttl now).cleanup now2 key = none := by
  simp [Cache.set, Cache.get, Cache.delete, Cache.cleanup, h2]

/-- Witness for C3: a concrete set/get/expire/sweep run. -/
theorem cache_get_after_set_and_expiry_witness :
    (0 < 1 ∧ 0 + 1 < 2)
    ∧ (((Cache.set (fun _ => none) "k" (7 : Nat) 1 0).get "k" 0).1 = (some 7, true)
      ∧ ((Cache.set (fun _ => none) "k" (7 : Nat) 1 0).get "k" 2).1 = (none, false)
      ∧ ((Cache.set (fun _ => none) "k" (7 : Nat) 1 0).get "k" 2).2 "k" = none
      ∧ (Cache.set (fun _ => none) "k" (7 : Nat) 1 0).cleanup 2 "k" = none) :=
  ⟨⟨by decide, by decide⟩,
    cache_get_after_set_and_expiry Nat (fun _ => none) "k" 7 1 0 2 (by decide) (by decide)⟩

/-- C4 counterexample: the parameter sequences `["a:b"]` and `["a", "b"]`
differ, yet `GenerateCacheKey` maps them to the same key with certainty
(not merely with hash-collision probability), because parameters are
joined with the `":"` separator before hashing and a parameter may itself
contain `":"`. -/
theorem generateCacheKey_separator_collision :
    GenerateCacheKey "op" ["a:b"] = GenerateCacheKey "op" ["a", "b"] :=
  congrArg (fun s => md5Hex (utf8Bytes s)) rfl

set_option maxRecDepth 100000 in
/-- C4 as amended: `GenerateCacheKey` is deterministic — the key is exactly
the hex MD5 of the concatenation of the operation name and the parameters
joined by `":"`, so identical operation and parameter sequences always
produce the same key. Two calls with differing parameter sequences produce
different hash inputs — and hence, up to MD5 collisions, different keys —
only when no parameter contains the `":"` separator; reordering two
distinct colon-free parameters does change the key, as the concrete pair
below shows. -/
theorem generateCacheKey_deterministic_hash_input :
    (∀ op params, GenerateCacheKey op params = md5Hex (utf8Bytes (cacheKeyInput op params)))
    ∧ cacheKeyInput "op" ["a", "b"] ≠ cacheKeyInput "op" ["b", "a"]
    ∧ GenerateCacheKey "op" ["a", "b"] ≠ GenerateCacheKey "op" ["b", "a"] :=
  ⟨fun _ _ => rfl, by decide, by decide⟩

/-- C5: for every candidate with non-negative popularity (all candidates
fed to the scorer carry TMDB popularity values, which are non-negative;
validated movie data is in addition clamped to non-negative), the score
equals `0.5 * genreMatch + 0.3 * ratingMatch + 0.2 * yearMatch` plus the
popularity bonus `min(popularity / 100, 0.1)`, and the rating-match
component is `1 - |VoteAverage - avgRating| / 10` exactly when an average
rating preference exists and the candidate's rating is positive, and 0
otherwise. -/
theorem scoreRecommendations_score_formula (preferences : Preferences) (m : Movie)
    (hpop : 0 ≤ m.Popularity) :
    ((scoreOne preferences m).Score
      = 0.5 * (scoreOne preferences m).GenreMatch + 0.3 * (scoreOne preferences m).RatingMatch
        + 0.2 * yearMatchOf preferences m + min (m.Popularity / 100) 0.1)
    ∧ (∀ avg, preferences.avgRating = some avg → 0 < m.VoteAverage →
        (scoreOne preferences m).RatingMatch = 1 - |m.VoteAverage - avg| / 10)
    ∧ (preferences.avgRating = none → (scoreOne preferences m).RatingMatch = 0)
    ∧ (m.VoteAverage ≤ 0 → (scoreOne preferences m).RatingMatch = 0) := by
  refine ⟨?_, ?_, ?_, ?_⟩
  · simp only [scoreOne, scoreOf]
    rcases lt_or_eq_of_le hpop with h | h
    · rw [if_pos h]; ring
    · rw [if_neg (by rw [← h]; exact lt_irrefl 0), ← h]
      rw [show ((0 : ℚ) / 100) = 0 by norm_num, min_eq_left (by norm_num)]
      ring
  · intro avg ha hv
    simp [scoreOne, ratingMatchOf, ha, if_pos hv]
  · intro ha
    simp [scoreOne, ratingMatchOf, ha]
  · intro hv
    cases hr : preferences.avgRating <;>
      simp [scoreOne, ratingMatchOf, hr, not_lt.mpr hv]

/-- Witness for C5: a concrete candidate with zero popularity. -/
theorem scoreRecommendations_score_formula_witness :
    (0 : ℚ) ≤ (Movie.mk 0 [] 0 0 "").Popularity
    ∧ (((scoreOne ⟨fun _ => none, none, fun _ => none⟩ (Movie.mk 0 [] 0 0 "")).Score
      = 0.5 * (scoreOne ⟨fun _ => none, none, fun _ => none⟩ (Movie.mk 0 [] 0 0 "")).GenreMatch
        + 0.3 * (scoreOne ⟨fun _ => none, none, fun _ => none⟩ (Movie.mk 0 [] 0 0 "")).RatingMatch
        + 0.2 * yearMatchOf ⟨fun _ => none, none, fun _ => none⟩ (Movie.mk 0 [] 0 0 "")
        + min ((Movie.mk 0 [] 0 0 "").Popularity / 100) 0.1)
      ∧ (∀ avg, (⟨fun _ => none, none, fun _ => none⟩ : Preferences).avgRating = some avg →
          0 < (Movie.mk 0 [] 0 0 "").VoteAverage →
          (scoreOne ⟨fun _ => none, none, fun _ => none⟩ (Movie.mk 0 [] 0 0 "")).RatingMatch
            = 1 - |(Movie.mk 0 [] 0 0 "").VoteAverage - avg| / 10)
      ∧ ((⟨fun _ => none, none, fun _ => none⟩ : Preferences).avgRating = none →
          (scoreOne ⟨fun _ => none, none, fun _ => none⟩ (Movie.mk 0 [] 0 0 "")).RatingMatch
            = 0)
      ∧ ((Movie.mk 0 [] 0 0 "").VoteAverage ≤ 0 →
          (scoreOne ⟨fun _ => none, none, fun _ => none⟩ (Movie.mk 0 [] 0 0 "")).RatingMatch
            = 0)) :=
  ⟨le_refl 0,
    scoreRecommendations_score_formula ⟨fun _ => none, none, fun _ => none⟩
      (Movie.mk 0 [] 0 0 "") (le_refl 0)⟩

/-- C6: with no usable cache entry for the call's key and an existing
watchlist, `GetRecommendations` on an empty watchlist returns the empty
list and no error, and when the watchlist is nonempty and the trending
fetch fails it returns that failure wrapped as an error — never an empty
list in its place. -/
theorem getRecommendations_empty_watchlist_and_trending_failure (cache : Cache CacheVal)
    (watchlists : String → Option Watchlist) (trending : Except String (List Movie))
    (userID : String) (limit : Int) (now : Nat) (wl : Watchlist)
    (hmiss : cache (recommendationsKey userID limit) = none)
    (hwl : watchlists userID = some wl) :
    (wl.Items = [] →
      (GetRecommendations cache watchlists trending userID limit now).1 = .ok [])
    ∧ (∀ e, trending = .error e → wl.Items ≠ [] →
      (GetRecommendations cache watchlists trending userID limit now).1
        = .error ("failed to get trending movies: " ++ e)) := by
  constructor
  · intro hit
    simp [GetRecommendations, Cache.get, hmiss, hwl, hit]
  · intro e hte hne
    cases hit : wl.Items with
    | nil => exact absurd hit hne
    | cons a as => simp [GetRecommendations, Cache.get, hmiss, hwl, hit, hte]

/-- Witness for C6: an empty cache and a user with an empty watchlist. -/
theorem getRecommendations_empty_watchlist_and_trending_failure_witness :
    ((fun _ : String => (none : Option (CacheItem CacheVal))) (recommendationsKey "u" 10) = none
      ∧ (fun _ : String => some (Watchlist.mk [])) "u" = some (Watchlist.mk []))
    ∧ (((Watchlist.mk []).Items = [] →
        (GetRecommendations (fun _ => none) (fun _ => some (Watchlist.mk []))
          (.ok []) "u" 10 0).1 = .ok [])
      ∧ (∀ e, (.ok [] : Except String (List Movie)) = .error e → (Watchlist.mk []).Items ≠ [] →
        (GetRecommendations (fun _ => none) (fun _ => some (Watchlist.mk []))
          (.ok []) "u" 10 0).1 = .error ("failed to get trending movies: " ++ e))) :=
  ⟨⟨rfl, rfl⟩,
    getRecommendations_empty_watchlist_and_trending_failure (fun _ => none)
      (fun _ => some (Watchlist.mk [])) (.ok []) "u" 10 0 (Watchlist.mk []) rfl rfl⟩

/-- C7: for every candidate pool and every limit at least 1 (which is what
the controller passes), the engine returns `min limit (pool size)` items,
sorted by descending score, and they are a highest-scoring selection: the
scored pool is a permutation of the result followed by a remainder whose
members all score no higher than every returned item. The controller
substitutes 10 for every non-positive caller-supplied limit. -/
theorem scoreRecommendations_limit_and_ranking (preferences : Preferences)
    (candidates : List Movie) (limit : Int) (h : 1 ≤ limit) :
    ((scoreRecommendations preferences candidates limit).length
        = min limit.toNat candidates.length)
    ∧ List.Sorted recGE (scoreRecommendations preferences candidates limit)
    ∧ (∃ rest, (candidates.map (scoreOne preferences)).Perm
          (scoreRecommendations preferences candidates limit ++ rest)
        ∧ ∀ x ∈ scoreRecommendations preferences candidates limit, ∀ y ∈ rest,
            y.Score ≤ x.Score)
    ∧ (∀ raw : Int, raw ≤ 0 → controllerRecommendationLimit raw = 10) := by
  have hs : List.Sorted recGE ((candidates.map (scoreOne preferences)).insertionSort recGE) :=
    List.sorted_insertionSort recGE _
  have hp : ((candidates.map (scoreOne preferences)).insertionSort recGE).Perm
      (candidates.map (scoreOne preferences)) := List.perm_insertionSort recGE _
  have hlen : ((candidates.map (scoreOne preferences)).insertionSort recGE).length
      = candidates.length := by rw [hp.length_eq, List.length_map]
  by_cases hlim :
      limit < (((candidates.map (scoreOne preferences)).insertionSort recGE).length : Int)
  · have heq : scoreRecommendations preferences candidates limit
        = ((candidates.map (scoreOne preferences)).insertionSort recGE).take limit.toNat := by
      simp only [scoreRecommendations, if_pos hlim]
    refine ⟨?_, ?_, ?_, ?_⟩
    · rw [heq, List.length_take, hlen]
    · rw [heq]; exact hs.sublist (List.take_sublist _ _)
    · refine ⟨((candidates.map (scoreOne preferences)).insertionSort recGE).drop limit.toNat,
        ?_, ?_⟩
      · rw [heq, List.take_append_drop]; exact hp.symm
      · rw [heq]
        intro x hx y hy
        have hpa : (((candidates.map (scoreOne preferences)).insertionSort recGE
            ).take limit.toNat
            ++ ((candidates.map (scoreOne preferences)).insertionSort recGE
            ).drop limit.toNat).Pairwise recGE := by
          rw [List.take_append_drop]; exact hs
        exact (List.pairwise_append.mp hpa).2.2 x hx y hy
    · intro raw hraw; simp [controllerRecommendationLimit, hraw]
  · have heq : scoreRecommendations preferences candidates limit
        = (candidates.map (scoreOne preferences)).insertionSort recGE := by
      simp only [scoreRecommendations, if_neg hlim]
    refine ⟨?_, ?_, ?_, ?_⟩
    · rw [heq, hlen]; omega
    · rw [heq]; exact hs
    · exact ⟨[], by rw [heq, List.append_nil]; exact hp.symm, by simp⟩
    · intro raw hraw; simp [controllerRecommendationLimit, hraw]

/-- Witness for C7: limit 1 over an empty candidate pool. -/
theorem scoreRecommendations_limit_and_ranking_witness :
    (1 : Int) ≤ 1
    ∧ ((scoreRecommendations ⟨fun _ => none, none, fun _ => none⟩ [] 1).length
        = min (1 : Int).toNat ([] : List Movie).length
      ∧ List.Sorted recGE (scoreRecommendations ⟨fun _ => none, none, fun _ => none⟩ [] 1)
      ∧ (∃ rest, (([] : List Movie).map (scoreOne ⟨fun _ => none, none, fun _ => none⟩)).Perm
            (scoreRecommendations ⟨fun _ => none, none, fun _ => none⟩ [] 1 ++ rest)
          ∧ ∀ x ∈ scoreRecommendations ⟨fun _ => none, none, fun _ => none⟩ [] 1, ∀ y ∈ rest,
              y.Score ≤ x.Score)
      ∧ (∀ raw : Int, raw ≤ 0 → controllerRecommendationLimit raw = 10)) :=
  ⟨le_refl 1,
    scoreRecommendations_limit_and_ranking ⟨fun _ => none, none, fun _ => none⟩ [] 1
      (le_refl 1)⟩

/-- C8: `CalculateSimilarity` always lies in `[0, 1]`; it is 0 whenever
either genre list is empty; it is 1 for any movie with a nonempty genre
list compared with itself; and on the genre sets `{1,2,3}` and `{2,3,4}`
it equals `1/2`. -/
theorem calculateSimilarity_jaccard_bounds (a b m : Movie) (hm : m.GenreIDs ≠ []) :
    (0 ≤ CalculateSimilarity a b ∧ CalculateSimilarity a b ≤ 1)
    ∧ (a.GenreIDs = [] ∨ b.GenreIDs = [] → CalculateSimilarity a b = 0)
    ∧ CalculateSimilarity m m = 1
    ∧ CalculateSimilarity ⟨0, [1, 2, 3], 0, 0, ""⟩ ⟨0, [2, 3, 4], 0, 0, ""⟩ = 1 / 2 := by
  refine ⟨?_, ?_, ?_, ?_⟩
  · by_cases hab : a.GenreIDs = [] ∨ b.GenreIDs = []
    · rw [CalculateSimilarity, if_pos hab]; norm_num
    · rw [CalculateSimilarity, if_neg hab]
      simp only
      set g1 := a.GenreIDs.dedup with hg1
      set g2 := b.GenreIDs.dedup with hg2
      set inter := (g1.filter (fun g => decide (g ∈ g2))).length with hinter
      have hi1 : inter ≤ g1.length := List.length_filter_le _ _
      have hi2 : inter ≤ g2.length := by
        have hnd : (g1.filter (fun g => decide (g ∈ g2))).Nodup :=
          (a.GenreIDs.nodup_dedup).filter _
        have hsub : (g1.filter (fun g => decide (g ∈ g2))) ⊆ g2 := by
          intro x hx
          have hxf := List.of_mem_filter hx
          exact of_decide_eq_true hxf
        exact (hnd.subperm hsub).length_le
      by_cases hu : g1.length + g2.length - inter = 0
      · rw [if_pos hu]; norm_num
      · rw [if_neg hu]
        have hupos : 0 < g1.length + g2.length - inter := Nat.pos_of_ne_zero hu
        constructor
        · positivity
        · rw [div_le_one (by exact_mod_cast hupos)]
          exact_mod_cast (by omega : inter ≤ g1.length + g2.length - inter)
  · intro hab; rw [CalculateSimilarity, if_pos hab]
  · rw [CalculateSimilarity, if_neg (by simpa using hm)]
    simp only
    have hfe : m.GenreIDs.dedup.filter (fun g => decide (g ∈ m.GenreIDs.dedup))
        = m.GenreIDs.dedup := by
      apply List.filter_eq_self.mpr
      intro x hx
      exact decide_eq_true hx
    rw [hfe]
    have hlen : m.GenreIDs.dedup.length + m.GenreIDs.dedup.length - m.GenreIDs.dedup.length
        = m.GenreIDs.dedup.length := by omega
    rw [hlen]
    have hne : m.GenreIDs.dedup.length ≠ 0 := by
      intro h0
      exact hm ((List.dedup_eq_nil _).mp (List.length_eq_zero.mp h0))
    rw [if_neg hne]
    exact div_self (by exact_mod_cast hne)
  · norm_num [CalculateSimilarity]
    decide

/-- Witness for C8: the `{1,2,3}` movie compared with itself and with
`{2,3,4}`. -/
theorem calculateSimilarity_jaccard_bounds_witness :
    (Movie.mk 0 [1, 2, 3] 0 0 "").GenreIDs ≠ []
    ∧ ((0 ≤ CalculateSimilarity (Movie.mk 0 [1, 2, 3] 0 0 "") (Movie.mk 0 [2, 3, 4] 0 0 "")
        ∧ CalculateSimilarity (Movie.mk 0 [1, 2, 3] 0 0 "") (Movie.mk 0 [2, 3, 4] 0 0 "") ≤ 1)
      ∧ ((Movie.mk 0 [1, 2, 3] 0 0 "").GenreIDs = []
          ∨ (Movie.mk 0 [2, 3, 4] 0 0 "").GenreIDs = [] →
          CalculateSimilarity (Movie.mk 0 [1, 2, 3] 0 0 "") (Movie.mk 0 [2, 3, 4] 0 0 "") = 0)
      ∧ CalculateSimilarity (Movie.mk 0 [1, 2, 3] 0 0 "") (Movie.mk 0 [1, 2, 3] 0 0 "") = 1
      ∧ CalculateSimilarity ⟨0, [1, 2, 3], 0, 0, ""⟩ ⟨0, [2, 3, 4], 0, 0, ""⟩ = 1 / 2) :=
  ⟨by decide,
    calculateSimilarity_jaccard_bounds (Movie.mk 0 [1, 2, 3] 0 0 "")
      (Movie.mk 0 [2, 3, 4] 0 0 "") (Movie.mk 0 [1, 2, 3] 0 0 "") (by decide)⟩

/-- Helper for C9: a run of the limiter preserves the capacity and keeps
the number of buffered permits at or below it. -/
theorem rl_run_bounded (events : List RLEvent) :
    ∀ rl : RateLimiter, rl.available ≤ rl.cap →
      (rl.run events).available ≤ rl.cap ∧ (rl.run events).cap = rl.cap := by
  induction events with
  | nil => exact fun _ h => ⟨h, rfl⟩
  | cons e es ih =>
    intro rl h
    have hstep : (rl.step e).available ≤ rl.cap ∧ (rl.step e).cap = rl.cap := by
      cases e with
      | refill =>
        rw [RateLimiter.step]
        split
        · refine ⟨by simp; omega, rfl⟩
        · exact ⟨h, rfl⟩
      | acquire => exact ⟨by simp [RateLimiter.step]; omega, rfl⟩
    have hrec := ih (rl.step e) (by rw [hstep.2]; exact hstep.1)
    have hrw : rl.run (e :: es) = (rl.step e).run es := rfl
    rw [hrw]
    exact ⟨by rw [← hstep.2]; exact hrec.1, by rw [hrec.2, hstep.2]⟩

/-- C9: a limiter configured for `requestsPerSecond` never holds more than
`requestsPerSecond` unclaimed permits, whatever interleaving of refill
ticks and acquisitions occurs, and a refill tick that finds the permit
channel full is a no-op. -/
theorem rateLimiter_capacity_bound (requestsPerSecond : Nat) (events : List RLEvent) :
    ((NewRateLimiter requestsPerSecond).run events).available ≤ requestsPerSecond
    ∧ (∀ c : Nat, RateLimiter.step ⟨c, c⟩ .refill = ⟨c, c⟩) := by
  constructor
  · exact (rl_run_bounded events (NewRateLimiter requestsPerSecond)
      (by simp [NewRateLimiter])).1
  · intro c; simp [RateLimiter.step]

/-- C10: with no usable cache entry for the call's key, every movie list
`GetSimilarMovies` successfully returns contains no movie whose ID equals
the queried movie ID — even when the source movie itself appears in the
trending candidate pool. -/
theorem getSimilarMovies_excludes_source (cache : Cache CacheVal)
    (getMovie : Int → Except String Movie) (trending : Except String (List Movie))
    (movieID : Int) (limit : Int) (now : Nat)
    (hmiss : cache (similarMoviesKey movieID limit) = none) :
    ∀ l, (GetSimilarMovies cache getMovie trending movieID limit now).1 = .ok l →
      ∀ m ∈ l, m.ID ≠ movieID := by
  intro l hok m hm
  rw [GetSimilarMovies] at hok
  simp only [Cache.get, hmiss] at hok
  cases hgm : getMovie movieID with
  | error e => rw [hgm] at hok; simp at hok
  | ok src =>
    rw [hgm] at hok
    cases htr : trending with
    | error e => rw [htr] at hok; simp at hok
    | ok cands =>
      rw [htr] at hok
      simp only [Except.ok.injEq] at hok
      have hmem : m ∈ (cands.filter
          (fun mm => decide (mm.ID ≠ movieID ∧ (0.1 : ℚ) < CalculateSimilarity src mm))) := by
        have h1 : m ∈ (cands.filter
            (fun mm => decide (mm.ID ≠ movieID ∧ (0.1 : ℚ) < CalculateSimilarity src mm))
            ).insertionSort (simGE src) := by
          rw [← hok] at hm
          by_cases hl : limit < (((cands.filter
              (fun mm => decide (mm.ID ≠ movieID ∧ (0.1 : ℚ) < CalculateSimilarity src mm))
              ).insertionSort (simGE src)).length : Int)
          · rw [if_pos hl] at hm
            exact List.mem_of_mem_take hm
          · rw [if_neg hl] at hm
            exact hm
        exact ((List.perm_insertionSort _ _).mem_iff).mp h1
      rw [List.mem_filter] at hmem
      exact (of_decide_eq_true hmem.2).1

/-- Witness for C10: an empty cache; the source movie is fetched and the
trending pool contains the source movie itself. -/
theorem getSimilarMovies_excludes_source_witness :
    (fun _ : String => (none : Option (CacheItem CacheVal))) (similarMoviesKey 1 5) = none
    ∧ (∀ l, (GetSimilarMovies (fun _ => none) (fun _ => .ok (Movie.mk 1 [1, 2, 3] 0 0 ""))
        (.ok [Movie.mk 1 [1, 2, 3] 0 0 "", Movie.mk 2 [1, 2, 3] 0 0 ""]) 1 5 0).1 = .ok l →
        ∀ m ∈ l, m.ID ≠ 1) :=
  ⟨rfl,
    getSimilarMovies_excludes_source (fun _ => none)
      (fun _ => .ok (Movie.mk 1 [1, 2, 3] 0 0 ""))
      (.ok [Movie.mk 1 [1, 2, 3] 0 0 "", Movie.mk 2 [1, 2, 3] 0 0 ""]) 1 5 0 rfl⟩
